import Mathlib

/-!
Shallow embedding of the CBAM trade-flow analysis pipeline.

The embedded code comes from the repository's React pages:
* `DocumentUpload` (source part_000): `detectCBAMRelevance`, the column
  normalization inside `processExcelFile`, and the persistence sequence of
  `processFile`;
* `CBAMAnalysis` (source part_002): `calculateRiskLevel`,
  `calculateComplianceScore`, the record enrichment and the statistics of
  `loadCBAMData`, and the guarded percent-of-total displays;
* `Dashboard`: the guarded CBAM percent display.

JavaScript numbers are modelled as exact rationals extended with NaN and
signed infinities (`JsNum`); spreadsheet cell values as strings or numbers
(`Cell`); a sheet row as an association list from column name to cell.
-/

/-- A JavaScript number: NaN, a signed infinity (`true` = negative), or a
finite value modelled as an exact rational. -/
inductive JsNum where
  | nan : JsNum
  | inf : Bool → JsNum
  | num : ℚ → JsNum
deriving DecidableEq

/-- A spreadsheet cell value as produced by `sheet_to_json`: a string or a
number. -/
inductive Cell where
  | str : String → Cell
  | num : ℚ → Cell
deriving DecidableEq

/-- JavaScript truthiness of a cell value: the empty string and the number 0
are falsy, everything else is truthy. -/
def Cell.truthy : Cell → Bool
  | .str s => s ≠ ""
  | .num q => q ≠ 0

/-- String rendering of a cell used when a cell feeds a string-typed field
(the TypeScript schema types those fields as `string`; numeric cells are
rendered to their decimal text). -/
def Cell.asString : Cell → String
  | .str s => s
  | .num q => toString q

/-- JavaScript `toLowerCase` restricted to the ASCII range (all classifier
keywords are ASCII). -/
def jsLower (s : String) : String := String.mk (s.data.map Char.toLower)

/-- JavaScript `String.prototype.includes`: `needle` occurs as a contiguous
substring of `hay`. -/
def containsSub (hay needle : String) : Bool :=
  hay.data.tails.any (fun t => needle.data.isPrefixOf t)

/-- Whitespace characters skipped by JavaScript `parseFloat`. -/
def jsWhitespace (c : Char) : Bool :=
  c = ' ' || c = '\t' || c = '\n' || c = '\r' || c = '\x0b' || c = '\x0c'

/-- Consume a maximal run of decimal digits, returning the accumulated value,
the number of digits consumed, and the remaining characters. -/
def takeDigits (acc n : Nat) : List Char → Nat × Nat × List Char
  | [] => (acc, n, [])
  | c :: cs =>
    if c.isDigit then takeDigits (10 * acc + (c.toNat - 48)) (n + 1) cs
    else (acc, n, c :: cs)

/-- Powers of ten as rationals (kept first-order so concrete values reduce). -/
def pow10 : Nat → ℚ
  | 0 => 1
  | n + 1 => 10 * pow10 n

/-- Numeric value of a successfully parsed float: sign, integer digits,
fraction digits with their count, and a signed decimal exponent. -/
def floatValue (neg : Bool) (ip fp nf : Nat) (eneg : Bool) (ev : Nat) : ℚ :=
  let mant : ℚ := (ip : ℚ) + (fp : ℚ) / pow10 nf
  let scaled : ℚ := if eneg then mant / pow10 ev else mant * pow10 ev
  if neg then -scaled else scaled

/-- JavaScript `parseFloat`: skip leading whitespace, read an optional sign,
then the longest prefix of the form `digits [. digits] [e|E [sign] digits]`
(or an `Infinity` prefix); if no digit is read the result is NaN. -/
def jsParseFloat (s : String) : JsNum :=
  let cs := s.data.dropWhile jsWhitespace
  let signed : Bool × List Char :=
    match cs with
    | '-' :: r => (true, r)
    | '+' :: r => (false, r)
    | r => (false, r)
  let neg := signed.1
  let cs1 := signed.2
  if "Infinity".data.isPrefixOf cs1 then JsNum.inf neg
  else
    let intPart := takeDigits 0 0 cs1
    let fracPart :=
      match intPart.2.2 with
      | '.' :: r => takeDigits 0 0 r
      | r => (0, 0, r)
    if intPart.2.1 = 0 && fracPart.2.1 = 0 then JsNum.nan
    else
      let expPart : Bool × Nat :=
        match fracPart.2.2 with
        | 'e' :: r | 'E' :: r =>
          (match r with
           | '-' :: r2 =>
             let d := takeDigits 0 0 r2
             if d.2.1 = 0 then (false, 0) else (true, d.1)
           | '+' :: r2 =>
             let d := takeDigits 0 0 r2
             (false, d.1)
           | r2 =>
             let d := takeDigits 0 0 r2
             (false, d.1))
        | _ => (false, 0)
      JsNum.num (floatValue neg intPart.1 fracPart.1 fracPart.2.1 expPart.1 expPart.2)

/-- `parseFloat` applied to a cell value: JavaScript coerces a number through
its decimal string, which round-trips to the same value. -/
def parseFloatCell : Cell → JsNum
  | .str s => jsParseFloat s
  | .num q => JsNum.num q

/-- A spreadsheet row as delivered by `sheet_to_json`: column name to cell. -/
abbrev Row := List (String × Cell)

/-- The `row[a1] || row[a2] || ... ` alias chain of `processExcelFile`:
the value of the first alias whose cell is present and truthy; `none` when
every alias is absent or falsy (the caller then supplies the literal
default). Lookup is by exact, case-sensitive property name. -/
def resolveAlias (row : Row) : List String → Option Cell
  | [] => none
  | a :: rest =>
    match row.lookup a with
    | some c => if c.truthy then some c else resolveAlias row rest
    | none => resolveAlias row rest

/-- A string-typed field of the normalized record: the first truthy alias
value, or the literal default ending the `||` chain. -/
def strField (row : Row) (aliases : List String) (dflt : String) : String :=
  match resolveAlias row aliases with
  | some c => c.asString
  | none => dflt

/-- A numeric field of the normalized record:
`parseFloat(row[a1] || ... || 0)`. -/
def numField (row : Row) (aliases : List String) : JsNum :=
  parseFloatCell ((resolveAlias row aliases).getD (Cell.num 0))

/-- Alias list for `productCode` in `processExcelFile`. -/
def productCodeAliases : List String := ["Product Code", "HS Code", "Code", "Kod"]

/-- Alias list for `productDescription`. -/
def productDescriptionAliases : List String :=
  ["Product Description", "Description", "Açıklama", "Ürün"]

/-- Alias list for `originCountry`. -/
def originCountryAliases : List String := ["Origin Country", "Country", "Ülke", "Menşe"]

/-- Alias list for `quantity`. -/
def quantityAliases : List String := ["Quantity", "Miktar", "Amount"]

/-- Alias list for `unit`. -/
def unitAliases : List String := ["Unit", "Birim"]

/-- Alias list for `value`. -/
def valueAliases : List String := ["Value", "Değer", "Amount"]

/-- Alias list for `currency`. -/
def currencyAliases : List String := ["Currency", "Para Birimi"]

/-- Keywords of the `cement` category of `detectCBAMRelevance`. -/
def cementKeywords : List String := ["2523", "2507", "cement", "concrete"]

/-- Keywords of the `steel` category. -/
def steelKeywords : List String :=
  ["72", "7301", "7302", "7303", "7304", "7305", "7306", "steel", "iron"]

/-- Keywords of the `aluminum` category. -/
def aluminumKeywords : List String :=
  ["76", "7601", "7602", "7603", "7604", "7605", "aluminum", "aluminium"]

/-- Keywords of the `fertilizers` category. -/
def fertilizersKeywords : List String :=
  ["31", "3102", "3103", "3104", "3105", "fertilizer", "urea", "ammonia"]

/-- Keywords of the `electricity` category. -/
def electricityKeywords : List String := ["2716", "electricity", "power", "energy"]

/-- The category table of `detectCBAMRelevance`, in the object-literal
insertion order that `Object.entries` iterates. -/
def cbamaCategories : List (String × List String) :=
  [("cement", cementKeywords), ("steel", steelKeywords), ("aluminum", aluminumKeywords),
   ("fertilizers", fertilizersKeywords), ("electricity", electricityKeywords)]

/-- One keyword matches when it is a substring of the (lowered) code or the
(lowered) description. -/
def keywordHit (code desc k : String) : Bool := containsSub code k || containsSub desc k

/-- A category matches when any of its keywords matches. -/
def catMatches (code desc : String) (keywords : List String) : Bool :=
  keywords.any (keywordHit code desc)

/-- `detectCBAMRelevance` from `DocumentUpload`: lower-case both inputs and
return the first category of the table any of whose keywords is a substring
of either input; otherwise not relevant, with no category. -/
def detectCBAMRelevance (productCode description : String) : Bool × Option String :=
  let code := jsLower productCode
  let desc := jsLower description
  match cbamaCategories.find? (fun p => catMatches code desc p.2) with
  | some p => (true, some p.1)
  | none => (false, none)

/-- The canonical trade record built by `processExcelFile`. -/
structure TradeRecord where
  productCode : String
  productDescription : String
  originCountry : String
  quantity : JsNum
  unit : String
  value : JsNum
  currency : String
  isCbamRelevant : Bool
  cbamaCategory : Option String
deriving DecidableEq

/-- The per-row mapping of `processExcelFile`: resolve each logical field
through its alias chain, then classify. -/
def normalizeRow (row : Row) : TradeRecord :=
  let productCode := strField row productCodeAliases ""
  let productDescription := strField row productDescriptionAliases ""
  let originCountry := strField row originCountryAliases ""
  let quantity := numField row quantityAliases
  let unit := strField row unitAliases "KG"
  let value := numField row valueAliases
  let currency := strField row currencyAliases "USD"
  let cbamaCheck := detectCBAMRelevance productCode productDescription
  { productCode := productCode
    productDescription := productDescription
    originCountry := originCountry
    quantity := quantity
    unit := unit
    value := value
    currency := currency
    isCbamRelevant := cbamaCheck.1
    cbamaCategory := cbamaCheck.2 }

/-- High-risk countries of `calculateRiskLevel` in `CBAMAnalysis`. -/
def highRiskCountries : List String := ["China", "India", "Russia", "Turkey", "Ukraine"]

/-- Medium-risk countries of `calculateRiskLevel`. -/
def mediumRiskCountries : List String := ["Brazil", "South Africa", "Indonesia", "Thailand"]

/-- High-risk categories of `calculateRiskLevel`. -/
def highRiskCategories : List String := ["steel", "cement", "aluminum"]

/-- `calculateRiskLevel` from `CBAMAnalysis`: the if-chain over membership in
the fixed country and category lists. -/
def calculateRiskLevel (country category : String) : String :=
  if highRiskCountries.contains country && highRiskCategories.contains category then "high"
  else if highRiskCountries.contains country || highRiskCategories.contains category then "medium"
  else if mediumRiskCountries.contains country then "medium"
  else "low"

/-- The base score ternary of `calculateComplianceScore`. -/
def baseScore (riskLevel : String) : ℚ :=
  if riskLevel = "high" then 40 else if riskLevel = "medium" then 70 else 85

/-- `calculateComplianceScore` from `CBAMAnalysis` on a finite value:
`Math.max(0, Math.min(100, baseScore - Math.min(value / 100000, 15)))`. -/
def calculateComplianceScore (riskLevel : String) (value : ℚ) : ℚ :=
  max 0 (min 100 (baseScore riskLevel - min (value / 100000) 15))

/-- `calculateComplianceScore` lifted to JavaScript numbers. NaN propagates
through the arithmetic and `Math.min`/`Math.max`; an infinite value drives
the adjustment to `15` (positive infinity) or the clamped score to `100`
(negative infinity), exactly as the JavaScript expression evaluates. -/
def calculateComplianceScoreJs (riskLevel : String) (value : JsNum) : JsNum :=
  match value with
  | .num q => .num (calculateComplianceScore riskLevel q)
  | .nan => .nan
  | .inf b =>
    if b then .num 100
    else .num (max 0 (min 100 (baseScore riskLevel - 15)))

/-- The enriched record built by `loadCBAMData` in `CBAMAnalysis` (the
database identity field is omitted: it plays no role in the analysis). -/
structure CBAMRecord where
  productCode : String
  productDescription : String
  originCountry : String
  quantity : JsNum
  value : JsNum
  cbamaCategory : String
  riskLevel : String
  complianceScore : JsNum
deriving DecidableEq

/-- The per-record enrichment of `loadCBAMData`:
`category = record.cbamaCategory || 'unknown'`, then risk level, then
compliance score from the trade value. -/
def analyzeRecord (r : TradeRecord) : CBAMRecord :=
  let category := r.cbamaCategory.getD "unknown"
  let riskLevel := calculateRiskLevel r.originCountry category
  { productCode := r.productCode
    productDescription := r.productDescription
    originCountry := r.originCountry
    quantity := r.quantity
    value := r.value
    cbamaCategory := category
    riskLevel := riskLevel
    complianceScore := calculateComplianceScoreJs riskLevel r.value }

/-- JavaScript `+` on numbers, as used by the score summation `reduce`. -/
def jsAdd : JsNum → JsNum → JsNum
  | .nan, _ => .nan
  | _, .nan => .nan
  | .inf a, .inf b => if a = b then .inf a else .nan
  | .inf a, .num _ => .inf a
  | .num _, .inf b => .inf b
  | .num a, .num b => .num (a + b)

/-- Division of a JavaScript number by a positive record count. -/
def jsDivByNat (a : JsNum) (n : Nat) : JsNum :=
  match a with
  | .nan => .nan
  | .inf b => .inf b
  | .num q => .num (q / n)

/-- The summary statistics computed by `loadCBAMData` (lines 104-108):
record count, high-risk count, and the zero-guarded average score. -/
structure CBAMStats where
  totalRecords : Nat
  highRiskRecords : Nat
  averageComplianceScore : JsNum
deriving DecidableEq

/-- `loadCBAMData` statistics fold: `filter`/`length` for the counts and a
`reduce` from `0` for the score sum, averaged only when the count is
positive. -/
def computeStats (rs : List CBAMRecord) : CBAMStats :=
  { totalRecords := rs.length
    highRiskRecords := (rs.filter (fun r => r.riskLevel = "high")).length
    averageComplianceScore :=
      if rs.length > 0 then
        jsDivByNat (rs.foldl (fun acc r => jsAdd acc r.complianceScore) (.num 0)) rs.length
      else .num 0 }

/-- JavaScript `Math.round` on a finite value: round half toward positive
infinity. -/
def jsRound (q : ℚ) : ℤ := ⌊q + 1 / 2⌋

/-- The High Risk card percentage of `CBAMAnalysis` (lines 237-240):
`totalRecords > 0 ? Math.round(highRiskRecords / totalRecords * 100) : 0`. -/
def highRiskPercent (s : CBAMStats) : ℤ :=
  if s.totalRecords > 0 then jsRound ((s.highRiskRecords : ℚ) / s.totalRecords * 100) else 0

/-- The per-category percentage of the `CBAMAnalysis` category list
(line 349): `totalRecords > 0 ? Math.round(count / totalRecords * 100) : 0`. -/
def categoryPercent (count totalRecords : Nat) : ℤ :=
  if totalRecords > 0 then jsRound ((count : ℚ) / totalRecords * 100) else 0

/-- The CBAM share of the `Dashboard` records card (lines 173-175):
`totalRecords > 0 ? Math.round(cbamaRecords / totalRecords * 100) : 0`. -/
def dashboardCbamPercent (cbamaRecords totalRecords : Nat) : ℤ :=
  if totalRecords > 0 then jsRound ((cbamaRecords : ℚ) / totalRecords * 100) else 0

/-- The observable outcome of one `processFile` run: the status string of the
document row in the store (`none` when its create never happened; the code
only ever writes "processing" and "completed" there), the number of record
rows persisted, and the status/error shown on the uploaded-file entry. -/
structure FileState where
  dbDocStatus : Option String
  dbRecordsPersisted : Nat
  uiStatus : String
  uiError : Option String
deriving DecidableEq

/-- The `for (const record of records)` persistence loop of `processFile`:
persistence calls are numbered in program order and `failAt = some k` makes
the `k`-th call throw; the loop stops at the first failure. Returns the
number of record rows written and whether the loop completed. -/
def writeRecords (failAt : Option Nat) (callIdx : Nat) : Nat → Nat × Bool
  | 0 => (0, true)
  | n + 1 =>
    if failAt = some callIdx then (0, false)
    else
      ((writeRecords failAt (callIdx + 1) n).1 + 1, (writeRecords failAt (callIdx + 1) n).2)

/-- The persistence sequence of `processFile` for a file that parsed into `n`
records, under an environment in which the `failAt`-th persistence call (0 =
document create, 1..n = record creates, n+1 = the completing document
update) throws with message `msg`. The surrounding `try`/`catch` turns any
throw into the error presentation on the uploaded-file entry only; the
catch contains no store write, so the document row keeps whatever status
was last written. -/
def processFileRun (n : Nat) (failAt : Option Nat) (msg : String) : FileState :=
  if failAt = some 0 then
    { dbDocStatus := none, dbRecordsPersisted := 0,
      uiStatus := "error", uiError := some msg }
  else
    if (writeRecords failAt 1 n).2 = false then
      { dbDocStatus := some "processing", dbRecordsPersisted := (writeRecords failAt 1 n).1,
        uiStatus := "error", uiError := some msg }
    else if failAt = some (n + 1) then
      { dbDocStatus := some "processing", dbRecordsPersisted := n,
        uiStatus := "error", uiError := some msg }
    else
      { dbDocStatus := some "completed", dbRecordsPersisted := n,
        uiStatus := "completed", uiError := none }

/-- Truthy-cell test for an alias in a row: `true` when the column is absent
or its value is falsy (the cases in which the `||` chain skips it). -/
def absentOrFalsy (row : Row) (name : String) : Bool :=
  match row.lookup name with
  | some c => !c.truthy
  | none => true

/-- Column resolution as claim C3 words it, for comparison with the
source-derived `resolveAlias`: try the aliases in order and return the value
of the first alias whose column name matches case-insensitively, whatever
its value. -/
def specResolveCaseInsensitive (row : Row) : List String → Option Cell
  | [] => none
  | a :: rest =>
    match row.find? (fun p => jsLower p.1 = jsLower a) with
    | some p => some p.2
    | none => specResolveCaseInsensitive row rest

/-- The classifier as claim C4 words it, for comparison with the
source-derived `detectCBAMRelevance`: lower-case both inputs and walk the
categories in the fixed order cement, steel, aluminum, fertilizers,
electricity, returning the first whose keyword set matches either field. -/
def specClassifyOrdered (productCode description : String) : Bool × Option String :=
  let code := jsLower productCode
  let desc := jsLower description
  if catMatches code desc cementKeywords then (true, some "cement")
  else if catMatches code desc steelKeywords then (true, some "steel")
  else if catMatches code desc aluminumKeywords then (true, some "aluminum")
  else if catMatches code desc fertilizersKeywords then (true, some "fertilizers")
  else if catMatches code desc electricityKeywords then (true, some "electricity")
  else (false, none)

/-- Bridge between the Boolean `List.contains` used by the embedded code
(JavaScript `Array.includes`) and list membership. -/
theorem contains_mem (l : List String) (x : String) : l.contains x = true ↔ x ∈ l := by
  rw [List.contains]; exact List.elem_iff

/-- The input row of spec scenario 1. -/
def c1Row : Row :=
  [("Code", Cell.str "7301"), ("Description", Cell.str "steel pipe"),
   ("Country", Cell.str "China"), ("Quantity", Cell.str "100"), ("Value", Cell.str "50000")]

/-- C1: the row `{Code:"7301", Description:"steel pipe", Country:"China",
Quantity:"100", Value:"50000"}`, run through normalization, classification,
risk derivation and compliance scoring, yields a CBAM-relevant record of
category `steel`, risk level `high`, and compliance score `39.5`. -/
theorem c1_pipeline_steel_row :
    (normalizeRow c1Row).isCbamRelevant = true ∧
    (normalizeRow c1Row).cbamaCategory = some "steel" ∧
    (analyzeRecord (normalizeRow c1Row)).riskLevel = "high" ∧
    (analyzeRecord (normalizeRow c1Row)).complianceScore = JsNum.num (79 / 2) := by
  refine ⟨by decide, by decide, by decide, ?_⟩
  have h : (analyzeRecord (normalizeRow c1Row)).complianceScore
      = JsNum.num (calculateComplianceScore "high" (floatValue false 50000 0 0 false 0)) := rfl
  have hv : floatValue false 50000 0 0 false 0 = 50000 := by norm_num [floatValue, pow10]
  have hb : baseScore "high" = 40 := rfl
  rw [h, hv]
  norm_num [calculateComplianceScore, hb, min_def, max_def]

/-- C5: for every risk level and every trade value the compliance score lies
in the closed interval `[0, 100]`. -/
theorem c5_complianceScore_bounds (riskLevel : String) (value : ℚ) :
    0 ≤ calculateComplianceScore riskLevel value ∧
    calculateComplianceScore riskLevel value ≤ 100 := by
  unfold calculateComplianceScore
  exact ⟨le_max_left 0 _, max_le (by norm_num) (min_le_left _ _)⟩

/-- C6: the risk level is `high` exactly when the country is high-risk and
the category is high-risk; otherwise `medium` exactly when the country is
high-risk, or the category is high-risk, or the country is medium-risk;
otherwise `low`. -/
theorem c6_riskLevel_characterization (country category : String) :
    (calculateRiskLevel country category = "high" ↔
      country ∈ highRiskCountries ∧ category ∈ highRiskCategories) ∧
    (calculateRiskLevel country category = "medium" ↔
      ¬(country ∈ highRiskCountries ∧ category ∈ highRiskCategories) ∧
       (country ∈ highRiskCountries ∨ category ∈ highRiskCategories ∨
        country ∈ mediumRiskCountries)) ∧
    (calculateRiskLevel country category = "low" ↔
      country ∉ highRiskCountries ∧ category ∉ highRiskCategories ∧
      country ∉ mediumRiskCountries) := by
  rw [← contains_mem highRiskCountries country, ← contains_mem highRiskCategories category,
    ← contains_mem mediumRiskCountries country]
  unfold calculateRiskLevel
  cases h1 : highRiskCountries.contains country <;>
    cases h2 : highRiskCategories.contains category <;>
      cases h3 : mediumRiskCountries.contains country <;>
        decide

/-- C7: for a fixed risk level the compliance score is non-increasing in the
trade value and never drops more than 15 points below the base score. -/
theorem c7_complianceScore_antitone_capped (riskLevel : String) (v1 v2 : ℚ)
    (h : v1 ≤ v2) :
    calculateComplianceScore riskLevel v2 ≤ calculateComplianceScore riskLevel v1 ∧
    baseScore riskLevel - 15 ≤ calculateComplianceScore riskLevel v2 := by
  have hbase : 40 ≤ baseScore riskLevel ∧ baseScore riskLevel ≤ 85 := by
    unfold baseScore
    split
    · norm_num
    · split <;> norm_num
  have hdiv : v1 / 100000 ≤ v2 / 100000 := by
    apply div_le_div_of_nonneg_right h
    norm_num
  constructor
  · unfold calculateComplianceScore
    apply max_le_max le_rfl
    apply min_le_min le_rfl
    have hmin : min (v1 / 100000) 15 ≤ min (v2 / 100000) 15 := min_le_min hdiv le_rfl
    linarith
  · unfold calculateComplianceScore
    have h15 : min (v2 / 100000) 15 ≤ 15 := min_le_right _ _
    have h1 : baseScore riskLevel - 15 ≤ baseScore riskLevel - min (v2 / 100000) 15 := by
      linarith
    have h100 : baseScore riskLevel - 15 ≤ 100 := by linarith [hbase.2]
    exact le_trans (le_min h100 h1) (le_max_right _ _)

/-- C7 witness: the monotonicity and cap instantiated at risk level `high`
with values `0 ≤ 100000`. -/
theorem c7_witness :
    calculateComplianceScore "high" 100000 ≤ calculateComplianceScore "high" 0 ∧
    baseScore "high" - 15 ≤ calculateComplianceScore "high" 100000 :=
  c7_complianceScore_antitone_capped "high" 0 100000 (by norm_num)

/-- The source classifier agrees with the ordered if-chain over the five
categories: cement first, then steel, aluminum, fertilizers, electricity. -/
theorem detect_eq_ordered (pc d : String) :
    detectCBAMRelevance pc d = specClassifyOrdered pc d := by
  unfold detectCBAMRelevance specClassifyOrdered cbamaCategories
  cases h1 : catMatches (jsLower pc) (jsLower d) cementKeywords <;>
    cases h2 : catMatches (jsLower pc) (jsLower d) steelKeywords <;>
      cases h3 : catMatches (jsLower pc) (jsLower d) aluminumKeywords <;>
        cases h4 : catMatches (jsLower pc) (jsLower d) fertilizersKeywords <;>
          cases h5 : catMatches (jsLower pc) (jsLower d) electricityKeywords <;>
            simp [List.find?, h1, h2, h3, h4, h5]

/-- A description containing the keyword `steel` makes the steel category
match, whatever the product code. -/
theorem steelKeywords_hit (code desc : String) (h : containsSub desc "steel" = true) :
    catMatches code desc steelKeywords = true := by
  simp [catMatches, steelKeywords, keywordHit, h]

/-- C4 (amended): the classifier lower-cases both inputs and walks the
categories in the fixed order cement, steel, aluminum, fertilizers,
electricity, returning the first category any of whose keywords is a
substring of either field, and `(false, none)` when none matches; a
description containing the `steel` keyword is never classified as aluminum,
and classifies as steel provided no cement keyword matches either field. -/
theorem c4_classifier_order_and_tiebreak (pc d : String) :
    detectCBAMRelevance pc d = specClassifyOrdered pc d ∧
    (containsSub (jsLower d) "steel" = true →
      (detectCBAMRelevance pc d).2 ≠ some "aluminum") ∧
    (catMatches (jsLower pc) (jsLower d) steelKeywords = true →
      catMatches (jsLower pc) (jsLower d) cementKeywords = false →
      detectCBAMRelevance pc d = (true, some "steel")) := by
  refine ⟨detect_eq_ordered pc d, fun h => ?_, fun hs hc => ?_⟩
  · rw [detect_eq_ordered]
    have hs := steelKeywords_hit (jsLower pc) (jsLower d) h
    unfold specClassifyOrdered
    cases h1 : catMatches (jsLower pc) (jsLower d) cementKeywords <;>
      simp [h1, hs]
  · rw [detect_eq_ordered]
    unfold specClassifyOrdered
    simp [hs, hc]

/-- C4 witness: on the description "Steel Aluminum" the classifier returns
steel and not aluminum. -/
theorem c4_witness :
    (detectCBAMRelevance "" "Steel Aluminum").2 ≠ some "aluminum" ∧
    detectCBAMRelevance "" "Steel Aluminum" = (true, some "steel") :=
  ⟨(c4_classifier_order_and_tiebreak "" "Steel Aluminum").2.1 (by decide),
   (c4_classifier_order_and_tiebreak "" "Steel Aluminum").2.2 (by decide) (by decide)⟩

/-- C4 counterexample: the description "cement steel aluminum" contains both
the steel and the aluminum keyword, yet classifies as cement (the cement
category precedes steel in the table), refuting the claim that such a
description always classifies as steel. -/
theorem c4_counterexample :
    containsSub (jsLower "cement steel aluminum") "steel" = true ∧
    containsSub (jsLower "cement steel aluminum") "aluminum" = true ∧
    (detectCBAMRelevance "" "cement steel aluminum").2 = some "cement" ∧
    (detectCBAMRelevance "" "cement steel aluminum").2 ≠ some "steel" := by decide

/-- The alias chain takes the first alias whose cell is present and truthy. -/
theorem resolveAlias_take (row : Row) (a : String) (rest : List String) (c : Cell)
    (h : row.lookup a = some c) (ht : c.truthy = true) :
    resolveAlias row (a :: rest) = some c := by
  simp [resolveAlias, h, ht]

/-- The alias chain skips an alias whose column is absent or whose cell is
falsy. -/
theorem resolveAlias_skip (row : Row) (a : String) (rest : List String)
    (h : absentOrFalsy row a = true) :
    resolveAlias row (a :: rest) = resolveAlias row rest := by
  cases hl : row.lookup a with
  | none => simp [resolveAlias, hl]
  | some c =>
    have h2 : c.truthy = false := by
      unfold absentOrFalsy at h
      rw [hl] at h
      simpa using h
    simp [resolveAlias, hl, h2]

/-- C2 (amended): numeric parsing never throws; a quantity or value whose
aliases are all absent or falsy gets the literal default `0`, while a truthy
cell whose text has no parsable numeric prefix yields `NaN`, not `0`. -/
theorem c2_lenient_numeric_parsing (row : Row) (s : String) :
    (resolveAlias row quantityAliases = none → (normalizeRow row).quantity = JsNum.num 0) ∧
    (resolveAlias row valueAliases = none → (normalizeRow row).value = JsNum.num 0) ∧
    (resolveAlias row quantityAliases = some (Cell.str s) → jsParseFloat s = JsNum.nan →
      (normalizeRow row).quantity = JsNum.nan) ∧
    (resolveAlias row valueAliases = some (Cell.str s) → jsParseFloat s = JsNum.nan →
      (normalizeRow row).value = JsNum.nan) := by
  have hq : (normalizeRow row).quantity = numField row quantityAliases := rfl
  have hv : (normalizeRow row).value = numField row valueAliases := rfl
  refine ⟨fun h => ?_, fun h => ?_, fun h hp => ?_, fun h hp => ?_⟩
  · rw [hq]; unfold numField; rw [h]; rfl
  · rw [hv]; unfold numField; rw [h]; rfl
  · rw [hq]; unfold numField; rw [h]; simpa [parseFloatCell] using hp
  · rw [hv]; unfold numField; rw [h]; simpa [parseFloatCell] using hp

/-- C2 witness: a row without numeric columns defaults the quantity to `0`;
a row whose `Quantity` cell is the string "abc" yields `NaN`. -/
theorem c2_witness :
    (normalizeRow []).quantity = JsNum.num 0 ∧
    (normalizeRow [("Quantity", Cell.str "abc")]).quantity = JsNum.nan :=
  ⟨(c2_lenient_numeric_parsing [] "").1 (by decide),
   (c2_lenient_numeric_parsing [("Quantity", Cell.str "abc")] "abc").2.2.1
     (by decide) (by decide)⟩

/-- C2 counterexample: the truthy, unparsable cell value "abc" yields `NaN`,
not the `0` the claim promises. -/
theorem c2_counterexample :
    (normalizeRow [("Quantity", Cell.str "abc")]).quantity = JsNum.nan ∧
    (normalizeRow [("Quantity", Cell.str "abc")]).quantity ≠ JsNum.num 0 := by decide

/-- C3 (amended): each logical field is resolved by trying its ordered alias
list with exact, case-sensitive column names; the first alias whose cell
value is truthy wins, an absent or falsy alias is skipped, and a field with
no truthy match gets its default (empty string or zero) instead of failing
the row. -/
theorem c3_alias_resolution (row : Row) (a : String) (rest : List String) (c : Cell) :
    (row.lookup a = some c → c.truthy = true → resolveAlias row (a :: rest) = some c) ∧
    (absentOrFalsy row a = true → resolveAlias row (a :: rest) = resolveAlias row rest) ∧
    (resolveAlias row productCodeAliases = none → (normalizeRow row).productCode = "") ∧
    (resolveAlias row quantityAliases = none → (normalizeRow row).quantity = JsNum.num 0) := by
  have hp : (normalizeRow row).productCode = strField row productCodeAliases "" := rfl
  have hq : (normalizeRow row).quantity = numField row quantityAliases := rfl
  refine ⟨resolveAlias_take row a rest c, resolveAlias_skip row a rest, fun h => ?_, fun h => ?_⟩
  · rw [hp]; unfold strField; rw [h]
  · rw [hq]; unfold numField; rw [h]; rfl

/-- C3 witness: the alias chain resolves `Code` for a row keyed exactly
`Code`, and an empty row defaults `productCode` to the empty string. -/
theorem c3_witness :
    resolveAlias [("Code", Cell.str "7301")] ["Code", "Kod"] = some (Cell.str "7301") ∧
    (normalizeRow []).productCode = "" :=
  ⟨(c3_alias_resolution [("Code", Cell.str "7301")] "Code" ["Kod"] (Cell.str "7301")).1
     (by decide) (by decide),
   (c3_alias_resolution [] "" [] (Cell.str "")).2.2.1 (by decide)⟩

/-- C3 counterexample: a row whose only column is the lower-case name "code"
resolves to the empty product code (lookup is case-sensitive), although the
case-insensitive resolution the claim describes would find "7301"; and a row
whose first alias holds the empty string resolves to the later truthy alias
"7301", although first-match-wins resolution would return the empty cell. -/
theorem c3_counterexample :
    (normalizeRow [("code", Cell.str "7301")]).productCode = "" ∧
    specResolveCaseInsensitive [("code", Cell.str "7301")] productCodeAliases
      = some (Cell.str "7301") ∧
    (normalizeRow [("Product Code", Cell.str ""), ("HS Code", Cell.str "7301")]).productCode
      = "7301" ∧
    specResolveCaseInsensitive [("Product Code", Cell.str ""), ("HS Code", Cell.str "7301")]
      productCodeAliases = some (Cell.str "") := by decide

/-- C10: when the `Quantity` and `Miktar` cells and the `Value` and `Değer`
cells are all absent or falsy and the shared fallback `Amount` cell is
truthy, quantity and value are both parsed from that same `Amount` cell and
coincide. -/
theorem c10_amount_shared_fallback (row : Row) (c : Cell)
    (hq1 : absentOrFalsy row "Quantity" = true) (hq2 : absentOrFalsy row "Miktar" = true)
    (hv1 : absentOrFalsy row "Value" = true) (hv2 : absentOrFalsy row "Değer" = true)
    (ha : row.lookup "Amount" = some c) (hat : c.truthy = true) :
    (normalizeRow row).quantity = parseFloatCell c ∧
    (normalizeRow row).value = parseFloatCell c ∧
    (normalizeRow row).quantity = (normalizeRow row).value := by
  have hq : (normalizeRow row).quantity = numField row quantityAliases := rfl
  have hv : (normalizeRow row).value = numField row valueAliases := rfl
  have hrq : resolveAlias row quantityAliases = some c := by
    unfold quantityAliases
    rw [resolveAlias_skip row _ _ hq1, resolveAlias_skip row _ _ hq2]
    exact resolveAlias_take row _ _ c ha hat
  have hrv : resolveAlias row valueAliases = some c := by
    unfold valueAliases
    rw [resolveAlias_skip row _ _ hv1, resolveAlias_skip row _ _ hv2]
    exact resolveAlias_take row _ _ c ha hat
  have h1 : (normalizeRow row).quantity = parseFloatCell c := by
    rw [hq]; unfold numField; rw [hrq]; rfl
  have h2 : (normalizeRow row).value = parseFloatCell c := by
    rw [hv]; unfold numField; rw [hrv]; rfl
  exact ⟨h1, h2, h1.trans h2.symm⟩

/-- C10 witness: a row carrying only a truthy `Amount` cell normalizes to
equal quantity and value. -/
theorem c10_witness :
    (normalizeRow [("Amount", Cell.str "250")]).quantity
      = (normalizeRow [("Amount", Cell.str "250")]).value :=
  (c10_amount_shared_fallback [("Amount", Cell.str "250")] (Cell.str "250")
    (by decide) (by decide) (by decide) (by decide) (by decide) (by decide)).2.2

/-- Without a designated failure the record loop writes every record. -/
theorem writeRecords_none (n : Nat) : ∀ c : Nat, writeRecords none c n = (n, true) := by
  induction n with
  | zero => intro c; rfl
  | succ n ih => intro c; simp [writeRecords, ih]

/-- With the failing call inside the loop range the loop stops after the
records before it; with the failing call outside, it writes every record. -/
theorem writeRecords_some (k n : Nat) : ∀ c : Nat,
    writeRecords (some k) c n =
      if c ≤ k ∧ k < c + n then (k - c, false) else (n, true) := by
  induction n with
  | zero =>
    intro c
    rw [if_neg (by omega)]
    rfl
  | succ n ih =>
    intro c
    by_cases hk : k = c
    · subst hk
      rw [if_pos (by omega)]
      simp [writeRecords]
    · have hne : (some k) ≠ (some c) := by simpa using hk
      unfold writeRecords
      rw [if_neg hne, ih (c + 1)]
      by_cases h2 : c + 1 ≤ k ∧ k < c + 1 + n
      · rw [if_pos h2, if_pos (by omega)]
        simp only [Prod.mk.injEq]
        exact ⟨by omega, by trivial⟩
      · rw [if_neg h2, if_neg (by omega)]

/-- C8 (amended): when any persistence call of a file's processing fails
(the document create, any record create, or the completing update), the
uploaded-file entry presenting the document is marked `error` carrying the
human-readable cause, while the persisted document row is never set to
`error`: it is absent (the create itself failed) or remains at
`processing`; and any run presented as `completed` (on the entry or on the
document row) has persisted every record. -/
theorem c8_persistence_failure_handling (n k : Nat) (msg : String) (hk : k ≤ n + 1) :
    ((processFileRun n (some k) msg).uiStatus = "error" ∧
     (processFileRun n (some k) msg).uiError = some msg ∧
     (processFileRun n (some k) msg).dbDocStatus ≠ some "error" ∧
     ((processFileRun n (some k) msg).dbDocStatus = none ∨
      (processFileRun n (some k) msg).dbDocStatus = some "processing")) ∧
    ∀ fa : Option Nat,
      ((processFileRun n fa msg).uiStatus = "completed" ∨
       (processFileRun n fa msg).dbDocStatus = some "completed") →
      (processFileRun n fa msg).dbRecordsPersisted = n := by
  constructor
  · by_cases h0 : k = 0
    · subst h0
      have hval : processFileRun n (some 0) msg =
          { dbDocStatus := none, dbRecordsPersisted := 0,
            uiStatus := "error", uiError := some msg } := by
        unfold processFileRun
        rw [if_pos rfl]
      rw [hval]
      refine ⟨rfl, rfl, fun h => ?_, Or.inl rfl⟩
      have h2 : (none : Option String) = some "error" := h
      exact absurd h2 (by decide)
    · have h0n : (some k) ≠ some (0 : Nat) := by simpa using h0
      by_cases h1 : 1 ≤ k ∧ k < 1 + n
      · have hval : processFileRun n (some k) msg =
            { dbDocStatus := some "processing", dbRecordsPersisted := k - 1,
              uiStatus := "error", uiError := some msg } := by
          unfold processFileRun
          rw [if_neg h0n, writeRecords_some]
          simp [h1]
        rw [hval]
        refine ⟨rfl, rfl, fun h => ?_, Or.inr rfl⟩
        have h2 : (some "processing" : Option String) = some "error" := h
        exact absurd h2 (by decide)
      · have hkn : k = n + 1 := by omega
        subst hkn
        have hval : processFileRun n (some (n + 1)) msg =
            { dbDocStatus := some "processing", dbRecordsPersisted := n,
              uiStatus := "error", uiError := some msg } := by
          unfold processFileRun
          rw [if_neg h0n, writeRecords_some]
          have hlt : ¬(n + 1 < 1 + n) := by omega
          simp [hlt]
        rw [hval]
        refine ⟨rfl, rfl, fun h => ?_, Or.inr rfl⟩
        have h2 : (some "processing" : Option String) = some "error" := h
        exact absurd h2 (by decide)
  · intro fa hcomp
    cases fa with
    | none =>
      have hval : processFileRun n none msg =
          { dbDocStatus := some "completed", dbRecordsPersisted := n,
            uiStatus := "completed", uiError := none } := by
        unfold processFileRun
        rw [writeRecords_none]
        simp
      rw [hval]
    | some j =>
      unfold processFileRun at hcomp ⊢
      by_cases h0 : j = 0
      · subst h0
        rw [if_pos rfl] at hcomp
        rcases hcomp with h | h
        · have h2 : ("error" : String) = "completed" := h
          exact absurd h2 (by decide)
        · have h2 : (none : Option String) = some "completed" := h
          exact absurd h2 (by decide)
      · have h0n : (some j) ≠ some (0 : Nat) := by simpa using h0
        rw [if_neg h0n, writeRecords_some] at hcomp ⊢
        by_cases h1 : 1 ≤ j ∧ j < 1 + n
        · simp only [if_pos h1] at hcomp
          rcases hcomp with h | h
          · have h2 : ("error" : String) = "completed" := h
            exact absurd h2 (by decide)
          · have h2 : (some "processing" : Option String) = some "completed" := h
            exact absurd h2 (by decide)
        · simp only [if_neg h1] at hcomp ⊢
          by_cases h2 : (some j) = some (n + 1)
          · rw [if_pos h2] at hcomp
            simp at hcomp
          · rw [if_neg h2] at hcomp ⊢
            simp

/-- C8 witness: with two records and the first record create failing, the
entry shows `error` with the cause while the document row stays at
`processing`, never `error`. -/
theorem c8_witness :
    (processFileRun 2 (some 1) "DB write failed").uiStatus = "error" ∧
    (processFileRun 2 (some 1) "DB write failed").uiError = some "DB write failed" ∧
    (processFileRun 2 (some 1) "DB write failed").dbDocStatus ≠ some "error" ∧
    ((processFileRun 2 (some 1) "DB write failed").dbDocStatus = none ∨
     (processFileRun 2 (some 1) "DB write failed").dbDocStatus = some "processing") :=
  (c8_persistence_failure_handling 2 1 "DB write failed" (by decide)).1

/-- C8 counterexample: a run whose first record create fails leaves the
persisted document row at status `processing`; the catch block writes no
status to the store, so the owning document row is never marked `error`,
refuting the claim as stated. -/
theorem c8_counterexample :
    (processFileRun 2 (some 1) "DB write failed").dbDocStatus = some "processing" ∧
    (processFileRun 2 (some 1) "DB write failed").dbDocStatus ≠ some "error" := by decide

/-- C9: every percent-of-total display is zero-guarded: with a zero total
each of the three call sites outputs `0` (no division happens), and the
statistics of an empty CBAM record collection show zero records, percentage
`0` and average score `0`. -/
theorem c9_percent_division_guard (count : Nat) :
    (computeStats []).totalRecords = 0 ∧
    (computeStats []).averageComplianceScore = JsNum.num 0 ∧
    highRiskPercent (computeStats []) = 0 ∧
    categoryPercent count 0 = 0 ∧
    dashboardCbamPercent count 0 = 0 ∧
    (∀ s : CBAMStats, s.totalRecords = 0 → highRiskPercent s = 0) := by
  refine ⟨rfl, rfl, rfl, rfl, rfl, fun s h => ?_⟩
  unfold highRiskPercent
  rw [h]
  rfl

/-- C9 witness: a statistics value with zero total records displays a zero
high-risk percentage. -/
theorem c9_witness : highRiskPercent ⟨0, 3, JsNum.num 0⟩ = 0 :=
  (c9_percent_division_guard 0).2.2.2.2.2 ⟨0, 3, JsNum.num 0⟩ rfl

/-- C6 witness: China with category steel is classified high risk. -/
theorem c6_witness : calculateRiskLevel "China" "steel" = "high" :=
  (c6_riskLevel_characterization "China" "steel").1.mpr ⟨by decide, by decide⟩
